import Mathlib

/-!
Verification of the analytics route of `whop-analytics-dashboard`
(`src/app/page.tsx`).

The source file concatenates several revisions of the same route handler.
The definitions below embed the latest revision, the one the rest of the
repository's documentation describes: the timestamp normalizer taking
`string | number | null | undefined` with the `1e12` seconds/milliseconds
threshold, the `PlanLike` merge-based `mrrCents`, the "live as of 30 days
ago" churn denominator, the `revenueByDay` map-based revenue trend, and the
`usd_total ?? total ?? subtotal ?? 0` amount resolution.

Modelling conventions:
* JS instants (`Date` time values) are integers of milliseconds since the
  epoch (`ℤ`); numeric timestamp inputs are modelled as integral doubles.
* JS monetary numbers are rationals (`ℚ`); every arithmetic step of the
  source is replayed exactly, including the divisions.
* A calendar date (the `toISOString().split("T")[0]` key) is modelled as
  the UTC day index `t / 86400000` (integer floor division), which is in
  bijection with the `"YYYY-MM-DD"` string the source uses.  `getDaysAgo`
  (`setDate(getDate() - d)`) subtracts `d` uniform UTC days.
* A JS `Map` is an insertion-ordered association list; `set` updates an
  existing key in place and appends a fresh key, as the ECMAScript `Map`
  does.  `Array.prototype.sort` is stable, so it is embedded as a stable
  insertion sort with respect to the comparator's preorder.
* Fields that may be `null`/`undefined` are `Option`s.
-/

namespace Whop

/-- A value fed to `parseTimestamp`: `null`/`undefined`, a (finite, integral)
number, or a string. -/
inductive TsValue where
  | null : TsValue
  | num (n : ℤ) : TsValue
  | str (s : String) : TsValue
deriving DecidableEq

/-- Maximal magnitude of a JS `Date` time value (`8.64e15` ms); larger values
give an invalid date. -/
def maxDateMs : ℤ := 8640000000000000

/-- The `1e12` threshold of the source: numeric inputs above it are taken to
be epoch milliseconds already, others epoch seconds. -/
def msThreshold : ℤ := 1000000000000

/-- Whether a candidate time value denotes a valid `Date` (its magnitude is
at most `maxDateMs`). -/
def validTime (n : ℤ) : Bool := decide (-maxDateMs ≤ n ∧ n ≤ maxDateMs)

/-- Model of JS `Number(s)` on a string: decimal digit strings evaluate to
their value, everything else (in particular every non-numeric string) is
`NaN`, i.e. `none`.  The development only ever applies it to digit strings
or not at all (blank strings are filtered before the call, as in the
source). -/
def jsStringToNumber (s : String) : Option ℤ :=
  if s.length ≠ 0 ∧ s.data.all Char.isDigit then
    some ((s.data.foldl (fun n c => n * 10 + (c.toNat - 48)) 0 : ℕ) : ℤ)
  else none

/-- `value.trim() === ""`: the string has no non-whitespace character. -/
def jsTrimmedEmpty (s : String) : Bool := s.data.all Char.isWhitespace

/-- Model of the generic `new Date(string)` fallback parse.  Its grammar is
environment-dependent; it is modelled as failing.  The only string the
claims exercise on this path is the empty string, for which JS indeed
yields an invalid date. -/
def jsDateFromString (_s : String) : Option ℤ := none

/-- The timestamp normalizer of the source (latest revision):
`null`/`undefined` give `none`; a finite numeric value is scaled by the
`1e12` threshold and accepted if it is a valid date, otherwise the value is
re-interpreted by the `new Date(value)` fallback; a non-blank string is
first read as a number, then falls back to generic date parsing. -/
def parseTimestamp : TsValue → Option ℤ
  | TsValue.null => none
  | TsValue.num n =>
      let ms := if msThreshold < n then n else n * 1000
      if validTime ms then some ms
      else if validTime n then some n else none
  | TsValue.str s =>
      let raw := if ¬ jsTrimmedEmpty s then jsStringToNumber s else none
      match raw with
      | some n =>
          let ms := if msThreshold < n then n else n * 1000
          if validTime ms then some ms else jsDateFromString s
      | none => jsDateFromString s

/-- Milliseconds per UTC calendar day. -/
def dayMs : ℤ := 86400000

/-- The calendar-date component of an instant (`toISOString().split("T")[0]`),
as a UTC day index. -/
def dateKeyOf (t : ℤ) : ℤ := t / dayMs

/-- `getDaysAgo(days)`: the instant `days` calendar days before `now`
(uniform UTC days). -/
def getDaysAgo (now : ℤ) (days : ℕ) : ℤ := now - (days : ℤ) * dayMs

/-- JS `Math.round`: round half toward positive infinity. -/
def jsRound (q : ℚ) : ℤ := ⌊q + 1 / 2⌋

/-- JS `a ?? b` on optional values. -/
def orD {α : Type} (a b : Option α) : Option α :=
  match a with
  | some x => some x
  | none => b

/-- JS string truthiness of an optional string (`undefined`, `null` and the
empty string are falsy). -/
def truthyStr : Option String → Bool
  | some s => decide (s ≠ "")
  | none => false

/-- Lookup in an insertion-ordered association list (JS `Map.get`). -/
def jsGet {β : Type} : List (String × β) → String → Option β
  | [], _ => none
  | (k', v) :: rest, k => if k' = k then some v else jsGet rest k

/-- Lookup with an integer key (`Map` keyed by date strings, modelled by day
indices). -/
def jsGetZ {β : Type} : List (ℤ × β) → ℤ → Option β
  | [], _ => none
  | (k', v) :: rest, k => if k' = k then some v else jsGetZ rest k

/-- JS `Map.set`: replace the value of an existing key in place, append a
fresh key at the end. -/
def jsSet {β : Type} : List (String × β) → String → β → List (String × β)
  | [], k, v => [(k, v)]
  | (k', v') :: rest, k, v =>
      if k' = k then (k, v) :: rest else (k', v') :: jsSet rest k v

/-- JS `Map.set` with an integer key. -/
def jsSetZ {β : Type} : List (ℤ × β) → ℤ → β → List (ℤ × β)
  | [], k, v => [(k, v)]
  | (k', v') :: rest, k, v =>
      if k' = k then (k, v) :: rest else (k', v') :: jsSetZ rest k v

/-- A plan record (`PlanLike`): the embedded plan of a membership or an
entry of the fetched plan collection. -/
structure Plan where
  id : Option String := none
  renewal_price : Option ℚ := none
  billing_period : Option ℚ := none
  plan_type : Option String := none
deriving DecidableEq

/-- The product reference attached to a payment (`payment.product`). -/
structure PayProduct where
  id : Option String := none
deriving DecidableEq

/-- A membership record, as consumed by the engine. -/
structure Membership where
  status : String
  created_at : TsValue := TsValue.null
  canceled_at : TsValue := TsValue.null
  plan : Option Plan := none
deriving DecidableEq

/-- A payment record, as consumed by the engine. -/
structure Payment where
  created_at : TsValue := TsValue.null
  usd_total : Option ℚ := none
  total : Option ℚ := none
  subtotal : Option ℚ := none
  product : Option PayProduct := none
deriving DecidableEq

/-- A catalog product. -/
structure Product where
  id : String
  title : Option String := none
deriving DecidableEq

/-- The `planMap` of the source: a `Map` from plan id to plan record, built
by iterating over the fetched plan collection and inserting every plan with
a truthy id (later records overwrite earlier ones in place). -/
def planMap (plans : List Plan) : List (String × Plan) :=
  plans.foldl
    (fun acc pl =>
      match pl.id with
      | some pid => if pid ≠ "" then jsSet acc pid pl else acc
      | none => acc)
    []

/-- The effective plan of a membership: JS object spread
`{...(fallbackPlan ?? \x7b\x7d), ...(planDetails ?? \x7b\x7d)}` — each field
present on the id-resolved record overrides the embedded one, embedded
fields fill the gaps (absent and `null` fields are both `none`). -/
def mergePlan (fallback : Option Plan) (details : Option Plan) : Plan :=
  let f := fallback.getD {}
  match details with
  | none => f
  | some d =>
      { id := orD d.id f.id
        renewal_price := orD d.renewal_price f.renewal_price
        billing_period := orD d.billing_period f.billing_period
        plan_type := orD d.plan_type f.plan_type }

/-- Membership status test of the source (`activeStatuses`). -/
def isActiveStatus (s : String) : Bool := s == "active" || s == "trialing"

/-- `activeMemberships`: memberships whose status is `active` or
`trialing`. -/
def activeMemberships (memberships : List Membership) : List Membership :=
  memberships.filter (fun m => isActiveStatus m.status)

/-- The `mrrCents` accumulator of the source: over active memberships,
resolve the effective plan, skip non-renewal plans, and add
`renewal_price / billingPeriod`, where `billingPeriod` is the plan's
`billing_period` when that field is truthy and positive and `1`
otherwise. -/
def mrrCents (memberships : List Membership) (plans : List Plan) : ℚ :=
  (activeMemberships memberships).foldl
    (fun sum m =>
      let planId := m.plan.bind (fun p => p.id)
      let planDetails :=
        match planId with
        | some pid => if pid ≠ "" then jsGet (planMap plans) pid else none
        | none => none
      let plan := mergePlan m.plan planDetails
      if plan.plan_type = some ("renewal") then
        let renewalPrice := plan.renewal_price.getD 0
        let billingPeriod :=
          match plan.billing_period with
          | some b => if b ≠ 0 ∧ 0 < b then b else 1
          | none => 1
        sum + renewalPrice / billingPeriod
      else sum)
    0

/-- `newSubscriptions`: memberships created within the trailing 30-day
window `[now-30d, now]`. -/
def newSubscriptions (memberships : List Membership) (now : ℤ) : ℕ :=
  (memberships.filter
    (fun m =>
      match parseTimestamp m.created_at with
      | some c => decide (getDaysAgo now 30 ≤ c ∧ c ≤ now)
      | none => false)).length

/-- The churn denominator of the source: memberships created on or before
`now-30d` and not canceled on or before `now-30d` (live as of 30 days
ago). -/
def subscribersThirtyDaysAgo (memberships : List Membership) (now : ℤ) : ℕ :=
  (memberships.filter
    (fun m =>
      match parseTimestamp m.created_at with
      | none => false
      | some c =>
          if getDaysAgo now 30 < c then false
          else
            match parseTimestamp m.canceled_at with
            | some x => decide (getDaysAgo now 30 < x)
            | none => true)).length

/-- The churn numerator of the source: memberships canceled within
`[now-30d, now]`. -/
def cancelledInLast30Days (memberships : List Membership) (now : ℤ) : ℕ :=
  (memberships.filter
    (fun m =>
      match parseTimestamp m.canceled_at with
      | some x => decide (getDaysAgo now 30 ≤ x ∧ x ≤ now)
      | none => false)).length

/-- `churnRate` before output rounding: `numerator / denominator × 100` when
the denominator is positive, else `0`. -/
def churnRate (memberships : List Membership) (now : ℤ) : ℚ :=
  if 0 < subscribersThirtyDaysAgo memberships now then
    (cancelledInLast30Days memberships now : ℚ)
      / (subscribersThirtyDaysAgo memberships now : ℚ) * 100
  else 0

/-- The payment amount used by both revenue call sites:
`payment.usd_total ?? payment.total ?? payment.subtotal ?? 0`. -/
def paymentTotal (p : Payment) : ℚ :=
  (orD p.usd_total (orD p.total p.subtotal)).getD 0

/-- The `revenueByDay` map of the source: every payment with a parseable
`created_at` inside `[now-90d, now]` adds its amount to the bucket of its
calendar date. -/
def revenueByDay (payments : List Payment) (now : ℤ) : List (ℤ × ℚ) :=
  payments.foldl
    (fun acc p =>
      match parseTimestamp p.created_at with
      | none => acc
      | some t =>
          if t < getDaysAgo now 90 ∨ now < t then acc
          else
            jsSetZ acc (dateKeyOf t)
              ((jsGetZ acc (dateKeyOf t)).getD 0 + paymentTotal p))
    []

/-- The 90-entry revenue trend: for `i = 89` down to `0`, emit the calendar
date of `getDaysAgo(i)` with that bucket's sum (default `0`) divided by
`100`. -/
def revenueTrend (payments : List Payment) (now : ℤ) : List (ℤ × ℚ) :=
  (List.range 90).map
    (fun j =>
      let i := 89 - j
      let key := dateKeyOf (getDaysAgo now i)
      (key, (jsGetZ (revenueByDay payments now) key).getD 0 / 100))

/-- Display-name resolution of the top-products accumulator:
`products.find(p => p.id === productId)?.title || "Product " + productId`. -/
def productName (products : List Product) (pid : String) : String :=
  match products.find? (fun pr => pr.id == pid) with
  | some pr =>
      match pr.title with
      | some t => if t ≠ "" then t else "Product " ++ pid
      | none => "Product " ++ pid
  | none => "Product " ++ pid

/-- The `productRevenueMap` of the source: payments of the trailing 30-day
window with a truthy product id, accumulated per product id in insertion
order; a fresh id resolves its display name once and starts at the
payment's amount over 100. -/
def productRevenueMap (payments : List Payment) (products : List Product)
    (now : ℤ) : List (String × (String × ℚ)) :=
  (payments.filter
    (fun p =>
      match parseTimestamp p.created_at with
      | some t => decide (getDaysAgo now 30 ≤ t ∧ t ≤ now)
      | none => false)).foldl
    (fun acc p =>
      match p.product.bind (fun pr => pr.id) with
      | some pid =>
          if pid ≠ "" then
            let revenue := paymentTotal p / 100
            match jsGet acc pid with
            | some nr => jsSet acc pid (nr.1, nr.2 + revenue)
            | none => jsSet acc pid (productName products pid, revenue)
          else acc
      | none => acc)
    []

/-- `topProducts`: the accumulated (name, revenue) values in insertion
order, stably sorted by descending revenue, truncated to 5 entries. -/
def topProducts (payments : List Payment) (products : List Product)
    (now : ℤ) : List (String × ℚ) :=
  (List.insertionSort (fun a b : String × ℚ => b.2 ≤ a.2)
    ((productRevenueMap payments products now).map (fun e => e.2))).take 5

/-- The JSON body of a successful response. -/
structure Snapshot where
  mrr : ℚ
  churnRate : ℚ
  newSubscriptions : ℕ
  totalActiveSubscribers : ℕ
  revenueTrend : List (ℤ × ℚ)
  topProducts : List (String × ℚ)
deriving DecidableEq

/-- The full metrics computation of the route, from the four fetched
collections and the `now` instant to the response body.  The two currency
outputs are rounded exactly as in the source (`Math.round(mrr)/100`,
`Math.round(churnRate*100)/100`). -/
def computeSnapshot (memberships : List Membership) (payments : List Payment)
    (products : List Product) (plans : List Plan) (now : ℤ) : Snapshot :=
  { mrr := (jsRound (mrrCents memberships plans) : ℚ) / 100
    churnRate := (jsRound (churnRate memberships now * 100) : ℚ) / 100
    newSubscriptions := newSubscriptions memberships now
    totalActiveSubscribers := (activeMemberships memberships).length
    revenueTrend := revenueTrend payments now
    topProducts := topProducts payments products now }

/-- A route response: either the snapshot body or an
`{error, message}` body with an HTTP status. -/
inductive ApiResponse where
  | ok (body : Snapshot) : ApiResponse
  | err (error : String) (message : String) (status : ℕ) : ApiResponse
deriving DecidableEq

/-- The `GET` handler: a missing (or falsy) company id short-circuits into
the configuration error before any fetch; otherwise the four collections
are fetched together and any fetch failure is caught by the top-level
`try`/`catch` and converted into the generic error body; a successful
fetch produces the full snapshot.  The engine itself is total, so the
fetch is the only failure source, as in the source's `try` block. -/
def GET (companyId : Option String)
    (fetched : Except String
      (List Membership × List Payment × List Product × List Plan))
    (now : ℤ) : ApiResponse :=
  if truthyStr companyId then
    match fetched with
    | Except.ok (m, p, pr, pl) => ApiResponse.ok (computeSnapshot m p pr pl now)
    | Except.error msg => ApiResponse.err ("Failed to fetch analytics data") msg 500
  else
    ApiResponse.err ("Missing Whop configuration")
      ("NEXT_PUBLIC_WHOP_COMPANY_ID must be set to use the analytics dashboard.") 500

/-- The `retryWithBackoff` loop, indexed by the current attempt number:
the list holds the outcome each attempt would produce; a success returns at
once, a failure on a non-final attempt sleeps `initialDelay * 2 ^ attempt`
and continues, and an exhausted loop rethrows the last error (`none` when
there was no attempt at all).  The first component collects the sleeps, in
order. -/
def retryGo {E A : Type} (initialDelay : ℚ) :
    ℕ → List (Except E A) → List ℚ × Except (Option E) A
  | _, [] => ([], Except.error none)
  | _, Except.ok v :: _ => ([], Except.ok v)
  | i, Except.error e :: rest =>
      match rest with
      | [] => ([], Except.error (some e))
      | r :: rs =>
          let out := retryGo initialDelay (i + 1) (r :: rs)
          (initialDelay * 2 ^ i :: out.1, out.2)

/-- `retryWithBackoff(fn, maxRetries, initialDelay)`: the attempts list has
one entry per allowed attempt (its length is `maxRetries`). -/
def retryWithBackoff {E A : Type} (attempts : List (Except E A))
    (initialDelay : ℚ) : List ℚ × Except (Option E) A :=
  retryGo initialDelay 0 attempts

/-- A payment whose normalized `created_at` lies in the trailing window
`[now - days·24h, now]` (the filter shape shared by the engine). -/
def paidInWindow (days : ℕ) (now : ℤ) (p : Payment) : Bool :=
  match parseTimestamp p.created_at with
  | some t => decide (getDaysAgo now days ≤ t ∧ t ≤ now)
  | none => false

/-- A payment of the 90-day window that lands on the calendar date `k`. -/
def paidOnDate (now : ℤ) (k : ℤ) (p : Payment) : Bool :=
  match parseTimestamp p.created_at with
  | some t => decide (getDaysAgo now 90 ≤ t ∧ t ≤ now ∧ dateKeyOf t = k)
  | none => false

/-- A payment whose normalized `created_at` lies between the start of the
calendar day of `now - 89d` and `now` — exactly the payments whose bucket
is one of the 90 emitted trend dates. -/
def paidInTrendSpan (now : ℤ) (p : Payment) : Bool :=
  match parseTimestamp p.created_at with
  | some t => decide ((dateKeyOf now - 89) * dayMs ≤ t ∧ t ≤ now)
  | none => false

/-! ## Concrete record instances used by individual claims -/

/-- A 90-day renewal plan priced at 300 minor units, embedded on a
membership (no plan collection entry). -/
def exC1plan : Plan :=
  { plan_type := some ("renewal"), renewal_price := some 300,
    billing_period := some 90 }

/-- An active membership carrying `exC1plan`. -/
def exC1mem : Membership := { status := "active", plan := some exC1plan }

/-- The embedded plan of the end-to-end example:
`{plan_type: "renewal", renewal_price: 1000, billing_period: null}`. -/
def exC2plan : Plan :=
  { plan_type := some ("renewal"), renewal_price := some 1000,
    billing_period := none }

/-- The single active membership of the end-to-end example. -/
def exC2mem : Membership := { status := "active", plan := some exC2plan }

/-- A membership created on day 1 and canceled on day 99 (relative to the
epoch), used to exercise the churn formula at `now` = day 100. -/
def exC3mem : Membership :=
  { status := "canceled", created_at := TsValue.num 86400,
    canceled_at := TsValue.num 8553600 }

/-- The reference instant of the churn example: day 100. -/
def exC3now : ℤ := 100 * 86400000

/-- The reference instant of the top-products example: day 100. -/
def exC6now : ℤ := 100 * 86400000

/-- A payment on day 95 (inside the trailing 30 days of `exC6now`) for the
given product id and amount. -/
def exC6pay (pid : String) (amt : ℚ) : Payment :=
  { created_at := TsValue.num 8208000, usd_total := some amt,
    product := some { id := some pid } }

/-- The product catalog of the top-products example (`p2` and `p6` are
missing, so they resolve to fallback labels). -/
def exC6products : List Product :=
  [⟨"p1", some ("Alpha")⟩, ⟨"p3", some ("Gamma")⟩, ⟨"p4", some ("Delta")⟩,
   ⟨"p5", some ("Epsilon")⟩]

/-- Six payments for six distinct products with distinct positive amounts,
deliberately out of revenue order. -/
def exC6payments : List Payment :=
  [exC6pay ("p1") 300, exC6pay ("p2") 600, exC6pay ("p3") 100,
   exC6pay ("p4") 500, exC6pay ("p5") 200, exC6pay ("p6") 400]

/-! ## Generic lemmas about the JS-map and date primitives -/

theorem jsGetZ_jsSetZ {β : Type} (m : List (ℤ × β)) (k k' : ℤ) (v : β) :
    jsGetZ (jsSetZ m k v) k' = if k = k' then some v else jsGetZ m k' := by
  induction m with
  | nil => simp [jsGetZ, jsSetZ]
  | cons e rest ih =>
    obtain ⟨ke, ve⟩ := e
    by_cases h : ke = k
    · subst h
      by_cases hk : ke = k' <;> simp [jsSetZ, jsGetZ, hk]
    · by_cases h1 : ke = k'
      · subst h1
        have h2 : ¬ k = ke := fun hc => h hc.symm
        simp [jsSetZ, jsGetZ, h, h2]
      · simp [jsSetZ, jsGetZ, h, h1, ih]

theorem dayMs_pos : (0 : ℤ) < dayMs := by norm_num [dayMs]

theorem dateKeyOf_getDaysAgo (now : ℤ) (i : ℕ) :
    dateKeyOf (getDaysAgo now i) = dateKeyOf now - i := by
  have hne : (dayMs : ℤ) ≠ 0 := by norm_num [dayMs]
  have h := Int.add_mul_ediv_right now (-(i : ℤ)) hne
  simp only [dateKeyOf, getDaysAgo]
  rw [show now - (i : ℤ) * dayMs = now + -(i : ℤ) * dayMs by ring, h]
  ring

theorem le_dateKeyOf_iff (k t : ℤ) : k ≤ dateKeyOf t ↔ k * dayMs ≤ t :=
  Int.le_ediv_iff_mul_le dayMs_pos

theorem dateKeyOf_mono {a b : ℤ} (h : a ≤ b) : dateKeyOf a ≤ dateKeyOf b :=
  Int.ediv_le_ediv dayMs_pos h

theorem lt_dateKeyOf_succ (now : ℤ) : now < (dateKeyOf now + 1) * dayMs :=
  Int.lt_ediv_add_one_mul_self now dayMs_pos

theorem sum_map_add' {α : Type} (l : List α) (f g : α → ℚ) :
    (l.map (fun x => f x + g x)).sum = (l.map f).sum + (l.map g).sum := by
  induction l with
  | nil => simp
  | cons x xs ih => simp [ih]; ring

theorem sum_map_div' {α : Type} (l : List α) (f : α → ℚ) (c : ℚ) :
    (l.map (fun x => f x / c)).sum = (l.map f).sum / c := by
  induction l with
  | nil => simp
  | cons x xs ih => simp [ih, add_div]

theorem sum_range_ite (n : ℕ) (s kt : ℤ) (a : ℚ) :
    ((List.range n).map (fun (j : ℕ) => if kt = s + (j : ℤ) then a else 0)).sum
      = if s ≤ kt ∧ kt < s + n then a else 0 := by
  induction n with
  | zero =>
    rw [if_neg (by omega)]
    simp
  | succ n ih =>
    rw [List.range_succ, List.map_append, List.sum_append, ih]
    simp only [List.map_cons, List.map_nil, List.sum_cons, List.sum_nil, add_zero]
    split_ifs with h1 h2 h3 h4 h5 <;> first
      | (exfalso; omega)
      | ring

/-! ## The daily-revenue buckets -/

theorem revenueByDay_foldl_get (now : ℤ) (k : ℤ) (payments : List Payment) :
    ∀ (acc : List (ℤ × ℚ)),
      (jsGetZ (payments.foldl
        (fun acc p =>
          match parseTimestamp p.created_at with
          | none => acc
          | some t =>
              if t < getDaysAgo now 90 ∨ now < t then acc
              else
                jsSetZ acc (dateKeyOf t)
                  ((jsGetZ acc (dateKeyOf t)).getD 0 + paymentTotal p)) acc) k).getD 0
        = (jsGetZ acc k).getD 0
          + ((payments.filter (paidOnDate now k)).map paymentTotal).sum := by
  induction payments with
  | nil => intro acc; simp
  | cons p ps ih =>
    intro acc
    rcases hpt : parseTimestamp p.created_at with _ | t
    · have hcontrib : paidOnDate now k p = false := by simp [paidOnDate, hpt]
      simp only [List.foldl_cons, hpt, List.filter_cons, hcontrib]
      exact ih acc
    · by_cases hw : t < getDaysAgo now 90 ∨ now < t
      · have hcontrib : paidOnDate now k p = false := by
          simp only [paidOnDate, hpt, decide_eq_false_iff_not]
          rcases hw with hw | hw
          · exact fun hc => absurd hc.1 (not_le.mpr hw)
          · exact fun hc => absurd hc.2.1 (not_le.mpr hw)
        simp only [List.foldl_cons, hpt, if_pos hw, List.filter_cons, hcontrib]
        exact ih acc
      · have hwin : getDaysAgo now 90 ≤ t ∧ t ≤ now := by
          rw [not_or, not_lt, not_lt] at hw; exact hw
        simp only [List.foldl_cons, hpt, if_neg hw, List.filter_cons]
        rw [ih]
        rw [jsGetZ_jsSetZ]
        by_cases hk : dateKeyOf t = k
        · have hcontrib : paidOnDate now k p = true := by
            simp [paidOnDate, hpt, hwin.1, hwin.2, hk]
          rw [if_pos hk, hcontrib]
          simp only [Option.getD_some, if_true, List.map_cons, List.sum_cons]
          rw [hk]
          ring
        · have hcontrib : paidOnDate now k p = false := by
            simp only [paidOnDate, hpt, decide_eq_false_iff_not]
            exact fun hc => hk hc.2.2
          rw [if_neg hk, hcontrib]
          simp

theorem revenueByDay_get (payments : List Payment) (now : ℤ) (k : ℤ) :
    (jsGetZ (revenueByDay payments now) k).getD 0
      = ((payments.filter (paidOnDate now k)).map paymentTotal).sum := by
  have h := revenueByDay_foldl_get now k payments []
  simpa [revenueByDay, jsGetZ] using h

/-! ## The revenue trend -/

theorem length_revenueTrend (payments : List Payment) (now : ℤ) :
    (revenueTrend payments now).length = 90 := by
  simp [revenueTrend]

theorem revenueTrend_key (now : ℤ) {j : ℕ} (hj : j < 90) :
    dateKeyOf (getDaysAgo now (89 - j)) = dateKeyOf now - 89 + (j : ℤ) := by
  rw [dateKeyOf_getDaysAgo]
  have : ((89 - j : ℕ) : ℤ) = 89 - (j : ℤ) := by omega
  rw [this]
  ring

theorem revenueTrend_get_fst (payments : List Payment) (now : ℤ) (j : ℕ)
    (h : j < (revenueTrend payments now).length) :
    ((revenueTrend payments now).get ⟨j, h⟩).1 = dateKeyOf now - 89 + (j : ℤ) := by
  have hj : j < 90 := by
    have := h; rwa [length_revenueTrend] at this
  simp only [revenueTrend, List.get_eq_getElem, List.getElem_map, List.getElem_range]
  exact revenueTrend_key now hj

theorem revenueTrend_get_snd (payments : List Payment) (now : ℤ) (j : ℕ)
    (h : j < (revenueTrend payments now).length) :
    ((revenueTrend payments now).get ⟨j, h⟩).2
      = ((payments.filter (paidOnDate now (dateKeyOf now - 89 + (j : ℤ)))).map
          paymentTotal).sum / 100 := by
  have hj : j < 90 := by
    have := h; rwa [length_revenueTrend] at this
  simp only [revenueTrend, List.get_eq_getElem, List.getElem_map, List.getElem_range]
  rw [revenueTrend_key now hj, revenueByDay_get]

theorem single_payment_over_days (now : ℤ) (p : Payment) :
    ((List.range 90).map (fun (j : ℕ) =>
        if paidOnDate now (dateKeyOf now - 89 + (j : ℤ)) p = true
        then paymentTotal p else 0)).sum
      = if paidInTrendSpan now p = true then paymentTotal p else 0 := by
  rcases hpt : parseTimestamp p.created_at with _ | t
  · simp [paidOnDate, hpt, paidInTrendSpan]
  · by_cases hw : getDaysAgo now 90 ≤ t ∧ t ≤ now
    · have hkt : dateKeyOf t ≤ dateKeyOf now := dateKeyOf_mono hw.2
      have hpt2 : ∀ (j : ℕ),
          (if paidOnDate now (dateKeyOf now - 89 + (j : ℤ)) p = true
           then paymentTotal p else 0)
            = (if dateKeyOf t = dateKeyOf now - 89 + (j : ℤ)
               then paymentTotal p else 0) := by
        intro j
        have hiff : (paidOnDate now (dateKeyOf now - 89 + (j : ℤ)) p = true)
            ↔ (dateKeyOf t = dateKeyOf now - 89 + (j : ℤ)) := by
          simp [paidOnDate, hpt, hw.1, hw.2]
        exact if_congr hiff rfl rfl
      rw [List.map_congr_left (fun j _ => hpt2 j)]
      rw [sum_range_ite 90 (dateKeyOf now - 89) (dateKeyOf t) (paymentTotal p)]
      have h1 : (paidInTrendSpan now p = true)
          ↔ ((dateKeyOf now - 89) * dayMs ≤ t) := by
        simp [paidInTrendSpan, hpt, hw.2]
      have h2 : ((dateKeyOf now - 89) * dayMs ≤ t)
          ↔ (dateKeyOf now - 89 ≤ dateKeyOf t) := (le_dateKeyOf_iff _ _).symm
      have hiff2 : (dateKeyOf now - 89 ≤ dateKeyOf t
            ∧ dateKeyOf t < dateKeyOf now - 89 + (90 : ℕ))
          ↔ (paidInTrendSpan now p = true) := by
        constructor
        · intro hc
          exact h1.mpr (h2.mpr hc.1)
        · intro hc
          refine ⟨h2.mp (h1.mp hc), ?_⟩
          push_cast
          omega
      exact if_congr hiff2 rfl rfl
    · have hPO : ∀ k, paidOnDate now k p = false := by
        intro k
        simp only [paidOnDate, hpt, decide_eq_false_iff_not]
        intro hc
        exact hw ⟨hc.1, hc.2.1⟩
      have hTS : paidInTrendSpan now p = false := by
        simp only [paidInTrendSpan, hpt, decide_eq_false_iff_not]
        intro hc
        apply hw
        have hlt := lt_dateKeyOf_succ now
        constructor
        · have hc1 := hc.1
          simp only [getDaysAgo, dateKeyOf, dayMs] at *
          push_cast
          omega
        · exact hc.2
      simp [hPO, hTS]

theorem trend_swap (now : ℤ) (payments : List Payment) :
    ((List.range 90).map (fun (j : ℕ) =>
        ((payments.filter (paidOnDate now (dateKeyOf now - 89 + (j : ℤ)))).map
          paymentTotal).sum)).sum
      = ((payments.filter (paidInTrendSpan now)).map paymentTotal).sum := by
  induction payments with
  | nil => simp
  | cons p ps ih =>
    have hB : ∀ k, (((p :: ps).filter (paidOnDate now k)).map paymentTotal).sum
        = (if paidOnDate now k p = true then paymentTotal p else 0)
          + ((ps.filter (paidOnDate now k)).map paymentTotal).sum := by
      intro k
      by_cases hp : paidOnDate now k p <;> simp [List.filter_cons, hp]
    have hmap : (List.range 90).map (fun (j : ℕ) =>
          (((p :: ps).filter (paidOnDate now (dateKeyOf now - 89 + (j : ℤ)))).map
            paymentTotal).sum)
        = (List.range 90).map (fun (j : ℕ) =>
            (if paidOnDate now (dateKeyOf now - 89 + (j : ℤ)) p = true
             then paymentTotal p else 0)
              + ((ps.filter (paidOnDate now (dateKeyOf now - 89 + (j : ℤ)))).map
                  paymentTotal).sum) :=
      List.map_congr_left (fun j _ => hB _)
    rw [hmap, sum_map_add', ih, single_payment_over_days]
    by_cases hp : paidInTrendSpan now p <;> simp [List.filter_cons, hp]

theorem revenueTrend_sum (payments : List Payment) (now : ℤ) :
    ((revenueTrend payments now).map (fun e => e.2)).sum
      = ((payments.filter (paidInTrendSpan now)).map paymentTotal).sum / 100 := by
  have hpt : (revenueTrend payments now).map (fun e => e.2)
      = (List.range 90).map (fun (j : ℕ) =>
          ((payments.filter (paidOnDate now (dateKeyOf now - 89 + (j : ℤ)))).map
            paymentTotal).sum / 100) := by
    simp only [revenueTrend, List.map_map]
    apply List.map_congr_left
    intro j hj
    have hj' : j < 90 := List.mem_range.mp hj
    simp only [Function.comp]
    rw [revenueTrend_key now hj', revenueByDay_get]
  rw [hpt, sum_map_div', trend_swap]

/-! ## Claim C4 -/

/-- C4 (amended): for every payments collection and reference instant, the
revenue trend has exactly 90 entries; entry `j` carries the calendar date
`dateKeyOf now - 89 + j` (so the dates are consecutive, strictly ascending
and duplicate-free, running from the date of `now-89d` through the date of
`now`); entry `j`'s revenue is the minor-unit total of the in-window
payments landing on that date divided by 100 (in particular `0` when no
payment landed there); and the sum of all entries equals the converted
total of the payments whose instant lies between the start of calendar day
`now-89d` and `now`.  (The original claim's sum clause — over all payments
of `[now-90d, now]` — fails: a payment of that window landing on the
calendar date of `now-90d` is bucketed outside the 90 emitted dates; see
the counterexample.) -/
theorem c4_revenue_trend (payments : List Payment) (now : ℤ) :
    (revenueTrend payments now).length = 90
    ∧ (∀ (j : ℕ) (h : j < (revenueTrend payments now).length),
        ((revenueTrend payments now).get ⟨j, h⟩).1 = dateKeyOf now - 89 + (j : ℤ))
    ∧ (∀ (j : ℕ) (h : j < (revenueTrend payments now).length),
        ((revenueTrend payments now).get ⟨j, h⟩).2
          = ((payments.filter (paidOnDate now (dateKeyOf now - 89 + (j : ℤ)))).map
              paymentTotal).sum / 100)
    ∧ ((revenueTrend payments now).map (fun e => e.2)).sum
        = ((payments.filter (paidInTrendSpan now)).map paymentTotal).sum / 100 :=
  ⟨length_revenueTrend payments now,
   fun j h => revenueTrend_get_fst payments now j h,
   fun j h => revenueTrend_get_snd payments now j h,
   revenueTrend_sum payments now⟩

/-- C4 witness: the amended statement applied at a concrete input (the
empty payments collection at `now = 0`), all hypotheses discharged. -/
theorem c4_witness :
    (revenueTrend [] 0).length = 90
    ∧ ((revenueTrend [] 0).get ⟨0, by decide⟩).1 = dateKeyOf 0 - 89 + ((0 : ℕ) : ℤ)
    ∧ ((revenueTrend [] 0).get ⟨0, by decide⟩).2
        = ((([] : List Payment).filter (paidOnDate 0 (dateKeyOf 0 - 89 + ((0 : ℕ) : ℤ)))).map
            paymentTotal).sum / 100
    ∧ ((revenueTrend [] 0).map (fun e => e.2)).sum
        = ((([] : List Payment).filter (paidInTrendSpan 0)).map paymentTotal).sum / 100 :=
  ⟨(c4_revenue_trend [] 0).1,
   (c4_revenue_trend [] 0).2.1 0 (by decide),
   (c4_revenue_trend [] 0).2.2.1 0 (by decide),
   (c4_revenue_trend [] 0).2.2.2⟩

/-- C4 counterexample: with `now` 2 seconds past midnight of day 90, a
payment of amount 100 at instant 2000 ms (2 epoch-seconds) lies inside
`[now-90d, now]`, yet its bucket (day 0) is not one of the 90 emitted
dates: the trend sums to 0 while the converted window total is 1, so the
claim's sum clause is false as stated. -/
theorem c4_counterexample :
    ¬ (((revenueTrend [{ created_at := TsValue.num 2, usd_total := some 100 }]
          (90 * 86400000 + 2000)).map (fun e => e.2)).sum
        = ((([{ created_at := TsValue.num 2, usd_total := some 100 }] : List Payment).filter
            (paidInWindow 90 (90 * 86400000 + 2000))).map paymentTotal).sum / 100) := by
  rw [revenueTrend_sum]
  norm_num [paidInTrendSpan, paidInWindow, parseTimestamp, msThreshold, validTime,
    maxDateMs, dateKeyOf, dayMs, getDaysAgo, paymentTotal, orD, List.filter]

/-! ## Claim C2 -/

/-- C2: on memberships = one active membership embedding
`{plan_type: "renewal", renewal_price: 1000, billing_period: null}` with no
resolvable plan id, and empty payments, products and plans, the snapshot
has mrr = 10.00, one active subscriber, zero new subscriptions, churn 0, a
90-entry all-zero revenue trend and no top products; and the effective
plan is the id-resolved-over-embedded merge, which here degenerates to the
embedded plan. -/
theorem c2_end_to_end (now : ℤ) :
    (computeSnapshot [exC2mem] [] [] [] now).mrr = 10
    ∧ (computeSnapshot [exC2mem] [] [] [] now).totalActiveSubscribers = 1
    ∧ (computeSnapshot [exC2mem] [] [] [] now).newSubscriptions = 0
    ∧ (computeSnapshot [exC2mem] [] [] [] now).churnRate = 0
    ∧ (computeSnapshot [exC2mem] [] [] [] now).revenueTrend.length = 90
    ∧ (∀ e ∈ (computeSnapshot [exC2mem] [] [] [] now).revenueTrend, e.2 = 0)
    ∧ (computeSnapshot [exC2mem] [] [] [] now).topProducts = []
    ∧ mergePlan (some exC2plan) none = exC2plan := by
  have hm : mrrCents [exC2mem] [] = 1000 := by
    norm_num [mrrCents, activeMemberships, isActiveStatus, exC2mem, exC2plan,
      mergePlan, planMap, orD, List.filter, List.foldl]
  have hd : subscribersThirtyDaysAgo [exC2mem] now = 0 := by
    simp [subscribersThirtyDaysAgo, exC2mem, parseTimestamp]
  refine ⟨?_, ?_, ?_, ?_, ?_, ?_, rfl, rfl⟩
  · simp only [computeSnapshot, hm]
    norm_num [jsRound]
  · simp [computeSnapshot, activeMemberships, isActiveStatus, exC2mem]
  · simp [computeSnapshot, newSubscriptions, exC2mem, parseTimestamp]
  · simp only [computeSnapshot, churnRate, hd]
    norm_num [jsRound]
  · simp only [computeSnapshot]
    exact length_revenueTrend [] now
  · intro e he
    simp only [computeSnapshot, revenueTrend, List.mem_map] at he
    obtain ⟨j, _, rfl⟩ := he
    simp [revenueByDay, jsGetZ]

/-! ## Claim C1 -/

/-- C1 (code evaluation at the failing input): for the active membership
embedding a renewal plan with `billing_period` 90 (days) and
`renewal_price` 300, the engine's monthly contribution is
`300 / 90 = 10/3` minor units — the billing-period value is used directly
as the divisor, with no conversion of days into months — so the snapshot
reports mrr 0.03, not the 1.00 (100 minor units per month) the
specification's days-to-months normalization demands. -/
theorem c1_mrr_billing_period_divisor :
    mrrCents [exC1mem] [] = 10 / 3
    ∧ (computeSnapshot [exC1mem] [] [] [] 0).mrr = 3 / 100
    ∧ (10 / 3 : ℚ) ≠ 100 := by
  have hm : mrrCents [exC1mem] [] = 10 / 3 := by
    norm_num [mrrCents, activeMemberships, isActiveStatus, exC1mem, exC1plan,
      mergePlan, planMap, orD, List.filter, List.foldl]
  refine ⟨hm, ?_, by norm_num⟩
  simp only [computeSnapshot, hm]
  norm_num [jsRound]

/-! ## Claim C3 -/

/-- C3: the churn denominator counts exactly the memberships created on or
before `now-30d` and not canceled on or before `now-30d`; the numerator
counts exactly the memberships canceled within `[now-30d, now]`; the churn
rate is `numerator / denominator × 100` whenever the denominator is
positive and exactly `0` when it is zero (no division is performed then,
so no NaN and no division error can arise). -/
theorem c3_churn (ms : List Membership) (now : ℤ) :
    subscribersThirtyDaysAgo ms now
        = (ms.filter (fun m =>
            (match parseTimestamp m.created_at with
             | some c => decide (c ≤ getDaysAgo now 30)
             | none => false)
            && !(match parseTimestamp m.canceled_at with
                 | some x => decide (x ≤ getDaysAgo now 30)
                 | none => false))).length
    ∧ cancelledInLast30Days ms now
        = (ms.filter (fun m =>
            match parseTimestamp m.canceled_at with
            | some x => decide (getDaysAgo now 30 ≤ x ∧ x ≤ now)
            | none => false)).length
    ∧ (0 < subscribersThirtyDaysAgo ms now →
        churnRate ms now
          = (cancelledInLast30Days ms now : ℚ)
              / (subscribersThirtyDaysAgo ms now : ℚ) * 100)
    ∧ (subscribersThirtyDaysAgo ms now = 0 → churnRate ms now = 0) := by
  refine ⟨?_, rfl, ?_, ?_⟩
  · unfold subscribersThirtyDaysAgo
    congr 1
    apply List.filter_congr
    intro m _
    rcases hc : parseTimestamp m.created_at with _ | c
    · simp
    · rcases hx : parseTimestamp m.canceled_at with _ | x
      · by_cases h : getDaysAgo now 30 < c
        · simp [h, not_le.mpr h]
        · simp [h, not_lt.mp h]
      · by_cases h : getDaysAgo now 30 < c
        · simp [h, not_le.mpr h]
        · by_cases h2 : x ≤ getDaysAgo now 30
          · simp [h, not_lt.mp h, h2, not_lt.mpr h2]
          · simp [h, not_lt.mp h, h2, not_le.mp h2]
  · intro h
    unfold churnRate
    rw [if_pos h]
  · intro h
    unfold churnRate
    rw [if_neg (by omega)]

/-- C3 witness: at `now` = day 100, with one membership created on day 1
and canceled on day 99, the denominator and numerator are both 1 and the
theorem yields a churn rate of exactly 100. -/
theorem c3_witness : churnRate [exC3mem] exC3now = 100 := by
  have h := (c3_churn [exC3mem] exC3now).2.2.1 (by decide)
  rw [h]
  have hn : cancelledInLast30Days [exC3mem] exC3now = 1 := by decide
  have hdn : subscribersThirtyDaysAgo [exC3mem] exC3now = 1 := by decide
  rw [hn, hdn]
  norm_num

/-! ## Claim C5 -/

/-- C5: the amount used by both revenue call sites resolves, for every
payment, to `usd_total` when present, else `total` when present, else
`subtotal` when present, else `0` (the shared `paymentTotal`, used by
`revenueByDay` and `productRevenueMap`). -/
theorem c5_amount_resolution (p : Payment) :
    (∀ x : ℚ, p.usd_total = some x → paymentTotal p = x)
    ∧ (p.usd_total = none → ∀ x : ℚ, p.total = some x → paymentTotal p = x)
    ∧ (p.usd_total = none → p.total = none →
        ∀ x : ℚ, p.subtotal = some x → paymentTotal p = x)
    ∧ (p.usd_total = none → p.total = none → p.subtotal = none →
        paymentTotal p = 0) := by
  refine ⟨?_, ?_, ?_, ?_⟩ <;> intros <;> simp_all [paymentTotal, orD]

/-- C5 witness: the resolution order applied to a payment carrying `total`
and `subtotal` but no `usd_total` picks `total`. -/
theorem c5_witness :
    paymentTotal { usd_total := none, total := some 77, subtotal := some 5 } = 77 :=
  (c5_amount_resolution _).2.1 rfl 77 rfl

/-! ## Claim C6 -/

/-- C6: top products are at most 5, sorted descending by accumulated
revenue (stably, so ties keep first-encountered order); payments without a
normalizable `created_at` and payments without a product reference are
ignored; and on six distinct products with distinct positive revenues the
output is exactly 5 entries in strictly descending order (with catalog
titles where resolvable and `"Product <id>"` fallbacks otherwise). -/
theorem c6_top_products :
    (∀ (payments : List Payment) (products : List Product) (now : ℤ),
        (topProducts payments products now).length ≤ 5
        ∧ (topProducts payments products now).Sorted
            (fun a b : String × ℚ => b.2 ≤ a.2))
    ∧ (∀ (p : Payment) (payments : List Payment) (products : List Product) (now : ℤ),
        parseTimestamp p.created_at = none →
          topProducts (p :: payments) products now
            = topProducts payments products now)
    ∧ (∀ (p : Payment) (payments : List Payment) (products : List Product) (now : ℤ),
        p.product = none →
          topProducts (p :: payments) products now
            = topProducts payments products now)
    ∧ topProducts exC6payments exC6products exC6now
        = [(("Product p2" : String), (6 : ℚ)), (("Delta" : String), 5),
           (("Product p6" : String), 4), (("Alpha" : String), 3),
           (("Epsilon" : String), 2)] := by
  haveI hTot : IsTotal (String × ℚ) (fun a b => b.2 ≤ a.2) :=
    ⟨fun a b => le_total b.2 a.2⟩
  haveI hTrans : IsTrans (String × ℚ) (fun a b => b.2 ≤ a.2) :=
    ⟨fun a b c h1 h2 => le_trans h2 h1⟩
  refine ⟨?_, ?_, ?_, ?_⟩
  · intro payments products now
    constructor
    · simp only [topProducts, List.length_take]
      exact min_le_left _ _
    · simp only [topProducts]
      exact List.Pairwise.sublist (List.take_sublist _ _)
        (List.sorted_insertionSort _ _)
  · intro p payments products now h
    simp [topProducts, productRevenueMap, List.filter_cons, h]
  · intro p payments products now h
    simp only [topProducts, productRevenueMap, List.filter_cons]
    split
    · rw [List.foldl_cons]
      simp [h]
    · rfl
  · norm_num [topProducts, productRevenueMap, exC6payments, exC6pay, exC6products,
      exC6now, parseTimestamp, msThreshold, validTime, maxDateMs, getDaysAgo,
      dayMs, paymentTotal, orD, jsGet, jsSet, productName, List.insertionSort,
      List.orderedInsert, List.filter, List.foldl, List.find?]
    decide

/-- C6 witness: a payment with no normalizable timestamp is ignored by the
top-products computation (the theorem applied at a concrete input). -/
theorem c6_witness :
    topProducts [{ created_at := TsValue.null, usd_total := some 5 }] [] 0
      = topProducts [] [] 0 :=
  c6_top_products.2.1 { created_at := TsValue.null, usd_total := some 5 } [] [] 0 rfl

/-! ## Claim C7 -/

/-- C7 (amended): a numeric input is interpreted as epoch seconds when it
is at most the `1e12` threshold and as epoch milliseconds when above it;
consequently `normalize(t) = normalize(t*1000)` holds for every
epoch-seconds input `t` with `10^9 < t ≤ 10^12` (every instant after
2001-09-09, in particular all current timestamps), but not for all valid
epoch-seconds inputs: for `t ≤ 10^9` the scaled value stays below the
threshold and is scaled again (see the counterexample at `t = 1`). -/
theorem c7_threshold (t : ℤ) :
    (0 ≤ t → t ≤ msThreshold →
        parseTimestamp (TsValue.num t) = some (t * 1000))
    ∧ (msThreshold < t → t ≤ maxDateMs →
        parseTimestamp (TsValue.num t) = some t)
    ∧ (1000000000 < t → t ≤ msThreshold →
        parseTimestamp (TsValue.num t) = parseTimestamp (TsValue.num (t * 1000))) := by
  have hA : ∀ u : ℤ, 0 ≤ u → u ≤ msThreshold →
      parseTimestamp (TsValue.num u) = some (u * 1000) := by
    intro u h0 h1
    have hms : ¬ (msThreshold < u) := not_lt.mpr h1
    have hv : validTime (u * 1000) = true := by
      simp only [validTime, decide_eq_true_eq, msThreshold, maxDateMs] at *
      omega
    simp only [parseTimestamp]
    rw [if_neg hms, if_pos hv]
  have hB : ∀ u : ℤ, msThreshold < u → u ≤ maxDateMs →
      parseTimestamp (TsValue.num u) = some u := by
    intro u h0 h1
    have hv : validTime u = true := by
      simp only [validTime, decide_eq_true_eq, msThreshold, maxDateMs] at *
      omega
    simp only [parseTimestamp]
    rw [if_pos h0, if_pos hv]
  refine ⟨hA t, hB t, ?_⟩
  intro h0 h1
  rw [hA t (by omega) h1, hB (t * 1000)
    (by simp only [msThreshold] at *; omega)
    (by simp only [msThreshold, maxDateMs] at *; omega)]

/-- C7 witness: the amended equivalence and both threshold branches at the
concrete epoch-seconds input 1700000000 (2023-11-14). -/
theorem c7_witness :
    parseTimestamp (TsValue.num 1700000000) = some 1700000000000
    ∧ parseTimestamp (TsValue.num 1700000000000) = some 1700000000000
    ∧ parseTimestamp (TsValue.num 1700000000)
        = parseTimestamp (TsValue.num (1700000000 * 1000)) := by
  refine ⟨?_, ?_, (c7_threshold 1700000000).2.2 (by decide) (by decide)⟩
  · have h := (c7_threshold 1700000000).1 (by decide) (by decide)
    rw [h]
    norm_num
  · exact (c7_threshold 1700000000000).2.1 (by decide) (by decide)

/-- C7 counterexample: at the valid epoch-seconds input `t = 1`, the
normalizer yields the instant 1000 ms, but at `t*1000` it yields
1000000 ms — the seconds/milliseconds equivalence fails below the
threshold, so the claim's universal statement is false. -/
theorem c7_counterexample :
    parseTimestamp (TsValue.num 1) = some 1000
    ∧ parseTimestamp (TsValue.num (1 * 1000)) = some 1000000
    ∧ parseTimestamp (TsValue.num 1) ≠ parseTimestamp (TsValue.num (1 * 1000)) := by
  decide

/-! ## Claim C8 -/

theorem retryGo_error_cons {E A : Type} (d : ℚ) (i : ℕ) (e : E)
    (rest : List (Except E A)) (h : rest ≠ []) :
    retryGo d i (Except.error e :: rest)
      = (d * 2 ^ i :: (retryGo d (i + 1) rest).1, (retryGo d (i + 1) rest).2) := by
  cases rest with
  | nil => exact absurd rfl h
  | cons r rs => simp [retryGo]

theorem delay_list_shift (d : ℚ) (i n : ℕ) :
    d * 2 ^ i :: (List.range n).map (fun (j : ℕ) => d * 2 ^ (i + 1 + j))
      = (List.range (n + 1)).map (fun (j : ℕ) => d * 2 ^ (i + j)) := by
  rw [List.range_succ_eq_map, List.map_cons, List.map_map]
  refine List.cons_eq_cons.mpr ⟨by norm_num, ?_⟩
  apply List.map_congr_left
  intro j _
  simp only [Function.comp, Nat.succ_eq_add_one]
  rw [show i + (j + 1) = i + 1 + j from by omega]

theorem retryGo_ok {E A : Type} (d : ℚ) (v : A) :
    ∀ (pre : List E) (i : ℕ) (rest : List (Except E A)),
      retryGo d i (pre.map Except.error ++ Except.ok v :: rest)
        = ((List.range pre.length).map (fun (j : ℕ) => d * 2 ^ (i + j)),
           Except.ok v) := by
  intro pre
  induction pre with
  | nil =>
    intro i rest
    simp [retryGo]
  | cons e pre' ih =>
    intro i rest
    have hne : pre'.map Except.error ++ Except.ok v :: rest
        ≠ ([] : List (Except E A)) := by simp
    rw [List.map_cons, List.cons_append, retryGo_error_cons d i e _ hne,
      ih (i + 1) rest]
    simp only [List.length_cons]
    exact congrArg₂ Prod.mk (delay_list_shift d i pre'.length) rfl

theorem retryGo_all_errors {E A : Type} (d : ℚ) :
    ∀ (es : List E) (i : ℕ) (e : E),
      retryGo (E := E) (A := A) d i ((es ++ [e]).map Except.error)
        = ((List.range es.length).map (fun (j : ℕ) => d * 2 ^ (i + j)),
           Except.error (some e)) := by
  intro es
  induction es with
  | nil =>
    intro i e
    simp [retryGo]
  | cons e' es' ih =>
    intro i e
    have hne : (es' ++ [e]).map Except.error ≠ ([] : List (Except E A)) := by simp
    rw [List.cons_append, List.map_cons, retryGo_error_cons d i e' _ hne, ih (i + 1) e]
    simp only [List.length_cons]
    exact congrArg₂ Prod.mk (delay_list_shift d i es'.length) rfl

/-- C8: if the first `k-1` attempts fail and attempt `k` succeeds, the
retry wrapper returns the success value having slept
`initialDelay · 2^(attempt-1)` after each failed attempt and never after
the success (the recorded sleeps are `d·2^0, …, d·2^(k-2)`); if every one
of the `n` attempts fails, the last failure is rethrown unchanged and no
sleep follows the final failed attempt (the sleeps are
`d·2^0, …, d·2^(n-2)`). -/
theorem c8_retry_backoff (E A : Type) :
    (∀ (pre : List E) (v : A) (rest : List (Except E A)) (d : ℚ),
        retryWithBackoff (pre.map Except.error ++ Except.ok v :: rest) d
          = ((List.range pre.length).map (fun (j : ℕ) => d * 2 ^ j),
             Except.ok v))
    ∧ (∀ (es : List E) (e : E) (d : ℚ),
        retryWithBackoff (E := E) (A := A) ((es ++ [e]).map Except.error) d
          = ((List.range es.length).map (fun (j : ℕ) => d * 2 ^ j),
             Except.error (some e))) := by
  constructor
  · intro pre v rest d
    rw [retryWithBackoff, retryGo_ok d v pre 0 rest]
    refine congrArg₂ Prod.mk ?_ rfl
    apply List.map_congr_left
    intro j _
    rw [Nat.zero_add]
  · intro es e d
    rw [retryWithBackoff, retryGo_all_errors d es 0 e]
    refine congrArg₂ Prod.mk ?_ rfl
    apply List.map_congr_left
    intro j _
    rw [Nat.zero_add]

/-! ## Claim C9 -/

/-- C9: a missing company identifier (and likewise an empty one, both falsy
in the source's guard) short-circuits into the configuration error body
before any fetching; with an identifier present, a fetch failure is caught
and converted into the generic `{error, message}` body with status 500,
and a fetch success always yields the complete snapshot — there is no
third outcome, so no partial metrics are ever emitted. -/
theorem c9_orchestrator
    (fetched : Except String
      (List Membership × List Payment × List Product × List Plan))
    (now : ℤ) (cid msg : String) (ms : List Membership) (ps : List Payment)
    (prs : List Product) (pls : List Plan) :
    GET none fetched now
        = ApiResponse.err ("Missing Whop configuration")
            ("NEXT_PUBLIC_WHOP_COMPANY_ID must be set to use the analytics dashboard.")
            500
    ∧ GET (some "") fetched now
        = ApiResponse.err ("Missing Whop configuration")
            ("NEXT_PUBLIC_WHOP_COMPANY_ID must be set to use the analytics dashboard.")
            500
    ∧ (cid ≠ "" →
        GET (some cid) (Except.error msg) now
          = ApiResponse.err ("Failed to fetch analytics data") msg 500)
    ∧ (cid ≠ "" →
        GET (some cid) (Except.ok (ms, ps, prs, pls)) now
          = ApiResponse.ok (computeSnapshot ms ps prs pls now)) := by
  refine ⟨?_, ?_, ?_, ?_⟩
  · simp [GET, truthyStr]
  · simp [GET, truthyStr]
  · intro h
    simp [GET, truthyStr, h]
  · intro h
    simp [GET, truthyStr, h]

/-- C9 witness: the fetch-failure and fetch-success outcomes at a concrete
company id, with the truthiness hypotheses discharged. -/
theorem c9_witness :
    GET (some ("biz_123")) (Except.error ("boom")) 0
        = ApiResponse.err ("Failed to fetch analytics data") ("boom") 500
    ∧ GET (some ("biz_123"))
        (Except.ok (([], [], [], []) :
          List Membership × List Payment × List Product × List Plan)) 0
        = ApiResponse.ok (computeSnapshot [] [] [] [] 0) :=
  ⟨(c9_orchestrator (Except.error ("boom")) 0 ("biz_123") ("boom") [] [] [] []).2.2.1
      (by decide),
   (c9_orchestrator (Except.error ("boom")) 0 ("biz_123") ("boom") [] [] [] []).2.2.2
      (by decide)⟩

/-! ## Claim C10 -/

/-- C10 (amended): the latest revision's normalizer guards on
`null`/`undefined` rather than JS falsiness, so the numeric input 0 maps
to the epoch instant (not to "none") and an epoch-timestamped record is
seen by the window filters (e.g. it is counted as a new subscription when
the window covers the epoch); the empty string still normalizes to "none",
via the blank-string numeric guard and the failing generic date parse, not
via a falsiness guard. -/
theorem c10_epoch_zero :
    parseTimestamp (TsValue.num 0) = some 0
    ∧ parseTimestamp (TsValue.str "") = none
    ∧ parseTimestamp TsValue.null = none
    ∧ newSubscriptions [{ status := "active", created_at := TsValue.num 0 }] 0 = 1 := by
  decide

/-- C10 counterexample: the numeric input 0 does not normalize to "none",
so the claim (which asserts it does) is false on the embedded revision. -/
theorem c10_counterexample : parseTimestamp (TsValue.num 0) ≠ none := by
  decide

end Whop
